import Mathlib

/-!
Verification of the interactive-pdf-mapper core
(`src/.bmad-user-memory/modules/interactive-pdf-mapper/src`): the data model
(`core/types.py`), the tolerance checker (`validation/tolerance.py`), the
validation coordinator and retry engine (`validation/coordinator.py`,
`validation/retry_engine.py`), the vision provider decision
(`vision/glm_provider.py`), checkpoint serialization
(`workflow/checkpoint.py`), the resume path (`workflow/discovery.py`), and
the cache index and sidecar store (`cache/index.py`, `cache/sidecar.py`).

Python floats are modelled as rationals (`ℚ`, with `WithTop ℚ` where the code
can produce `float('inf')`), Python exceptions as `Except` values, and files
on disk as explicit parameters describing their content.
-/

namespace PdfMapper

/-- Python exceptions that the modelled code can raise: `AttributeError`
(access to a missing attribute), `KeyError` (missing dict key), `TypeError`
(bad call arity), and the repository's `VisionAPIError` and
`WorkflowStateError` from `core/exceptions.py`. -/
inductive PyExc where
  | attributeError (name : String)
  | keyError (key : String)
  | typeError (msg : String)
  | visionAPIError (status_code : ℕ) (msg : String)
  | workflowStateError (msg : String)
  deriving DecidableEq, Repr

/-- JSON values, as produced by `json.dump` of the serialized checkpoint
dictionaries in `workflow/checkpoint.py`. -/
inductive JValue where
  | null
  | jbool (b : Bool)
  | jnum (q : ℚ)
  | jstr (s : String)
  | jarr (xs : List JValue)
  | jobj (kvs : List (String × JValue))

/-- Decidable equality for `Except` results, so that concrete runs of the
modelled operations can be checked by evaluation. -/
instance {ε α : Type} [DecidableEq ε] [DecidableEq α] :
    DecidableEq (Except ε α) := fun x y =>
  match x, y with
  | .ok a, .ok b =>
      decidable_of_iff (a = b) ⟨fun h => h ▸ rfl, fun h => by injection h⟩
  | .ok _, .error _ => .isFalse fun h => by injection h
  | .error _, .ok _ => .isFalse fun h => by injection h
  | .error e, .error e' =>
      decidable_of_iff (e = e') ⟨fun h => h ▸ rfl, fun h => by injection h⟩

/-- `FieldType` enumeration from `core/types.py`. -/
inductive FieldType where
  | text_input
  | signature
  | date
  | checkbox
  deriving DecidableEq, Repr

/-- The string `.value` of each `FieldType` member (`core/types.py`). -/
def FieldType.value : FieldType → String
  | .text_input => "text-input"
  | .signature => "signature"
  | .date => "date"
  | .checkbox => "checkbox"

/-- `ValidationStatus` enumeration from `core/types.py`: its only members
are `PENDING`, `PASSED` and `SKIPPED`. -/
inductive ValidationStatus where
  | pending
  | passed
  | skipped
  deriving DecidableEq, Repr

/-- The string `.value` of each `ValidationStatus` member (`core/types.py`). -/
def ValidationStatus.value : ValidationStatus → String
  | .pending => "pending"
  | .passed => "passed"
  | .skipped => "skipped"

/-- Python attribute lookup on the `ValidationStatus` enum class: exactly the
member names declared in `core/types.py` resolve; any other name raises
`AttributeError` in Python. -/
def ValidationStatus.classAttr : String → Option ValidationStatus
  | "PENDING" => some .pending
  | "PASSED" => some .passed
  | "SKIPPED" => some .skipped
  | _ => none

/-- `DetectionSensitivity` enumeration from `core/types.py`. -/
inductive DetectionSensitivity where
  | normal
  | high
  | very_high
  | maximum
  deriving DecidableEq, Repr

/-- `Coordinates` dataclass from `core/types.py`: a PDF bounding box. -/
structure Coordinates where
  x : ℚ
  y : ℚ
  width : ℚ
  height : ℚ
  deriving DecidableEq, Repr

/-- `CSSCoordinates` dataclass from `core/types.py`. -/
structure CSSCoordinates where
  top : String
  left : String
  width : String
  height : String
  deriving DecidableEq, Repr

/-- `FieldHierarchy` dataclass from `core/types.py`. -/
structure FieldHierarchy where
  «section» : String
  subsection : Option String := none
  entry : Option String := none
  field_label : Option String := none
  deriving DecidableEq, Repr

/-- `UIHints` dataclass from `core/types.py` (`label_position` is a literal
string, `group_with` a list of field ids). -/
structure UIHints where
  label_position : String := "above"
  group_with : List String := []
  deriving DecidableEq, Repr

/-- The validation evidence dict written by
`ValidationCoordinator._validate_field_with_retry` (`validation/coordinator.py`):
attempt number, measured box, and measured difference (possibly
`float('inf')`, hence `WithTop ℚ`). -/
structure ValidationEvidence where
  attempt : ℕ
  measured : Coordinates
  difference : WithTop ℚ
  deriving DecidableEq, Repr

/-- `DetectedField` dataclass from `core/types.py`, with all thirteen
declared attributes. -/
structure DetectedField where
  field_id : String
  field_type : FieldType
  coordinates : Coordinates
  hierarchy : FieldHierarchy
  page_number : ℕ
  confidence_score : ℚ
  validation_status : ValidationStatus := .pending
  section_id : String := ""
  render_order : ℤ := 0
  css_coordinates : Option CSSCoordinates := none
  ui_hints : Option UIHints := none
  retry_count : ℕ := 0
  validation_evidence : Option ValidationEvidence := none
  deriving DecidableEq, Repr

/-- `PageInfo` dataclass from `core/types.py`. -/
structure PageInfo where
  page_number : ℕ
  width : ℚ
  height : ℚ
  deriving DecidableEq, Repr

/-- The Python built-in `abs` on floats: negate a negative argument,
return a non-negative one unchanged. -/
def pyAbs (q : ℚ) : ℚ := if q < 0 then -q else q

/-- `pyAbs` agrees with the absolute value. -/
theorem pyAbs_eq_abs (q : ℚ) : pyAbs q = |q| := by
  unfold pyAbs
  split
  · exact (abs_of_neg (by assumption)).symm
  · exact (abs_of_nonneg (not_lt.mp (by assumption))).symm

namespace ToleranceChecker

/-- `ToleranceChecker.check` from `validation/tolerance.py`: absolute
differences of the four box components, their maximum, and
`passed = max_diff <= tolerance`. Returns the pair `(passed, max_diff)`. -/
def check (tolerance : ℚ) (expected measured : Coordinates) : Bool × ℚ :=
  let diff_x := pyAbs (expected.x - measured.x)
  let diff_y := pyAbs (expected.y - measured.y)
  let diff_width := pyAbs (expected.width - measured.width)
  let diff_height := pyAbs (expected.height - measured.height)
  let max_diff := max (max (max diff_x diff_y) diff_width) diff_height
  (decide (max_diff ≤ tolerance), max_diff)

end ToleranceChecker

namespace GLMVisionProvider

/-- Decision core of `GLMVisionProvider.validate_coordinates`
(`vision/glm_provider.py`, lines 352-387): given the field's expected box and
the parsed measurement response (`exists` flag and measured box), return
`(passed, measured, difference)`. When the field does not exist the
difference is `float('inf')`; otherwise the maximum absolute component
difference is compared against the literal `0.5` hard-coded on line 387. -/
def validate_coordinates (expected : Coordinates) (exists_flag : Bool)
    (measured : Coordinates) : Bool × Coordinates × WithTop ℚ :=
  if exists_flag = false then
    (false, measured, (⊤ : WithTop ℚ))
  else
    let diff_x := pyAbs (expected.x - measured.x)
    let diff_y := pyAbs (expected.y - measured.y)
    let diff_w := pyAbs (expected.width - measured.width)
    let diff_h := pyAbs (expected.height - measured.height)
    let max_difference := max (max (max diff_x diff_y) diff_w) diff_h
    (decide (max_difference ≤ (1 / 2 : ℚ)), measured,
      ((max_difference : ℚ) : WithTop ℚ))

end GLMVisionProvider

/-- `RetryParameters` dataclass from `core/types.py`. `detection_sensitivity`
is optional because `RetryEngine.get_parameters_for_attempt`
(`validation/retry_engine.py`, line 97) constructs a fallback with
`detection_sensitivity=None`. -/
structure RetryParameters where
  confidence_threshold : ℚ
  detection_sensitivity : Option DetectionSensitivity
  zoom_level : ℚ := 1
  contrast_enhancement : Bool := false
  edge_detection : Bool := false
  deriving DecidableEq, Repr

namespace RetryEngine

/-- `RetryEngine.get_parameters_for_attempt` from `validation/retry_engine.py`:
return the table entry for the attempt if present, otherwise the entry for
the final configured attempt, otherwise a built-in fallback. -/
def get_parameters_for_attempt (table : ℕ → Option RetryParameters)
    (max_attempts : ℕ) (attempt : ℕ) : RetryParameters :=
  match table attempt with
  | some p => p
  | none =>
      (table max_attempts).getD
        { confidence_threshold := 65 / 100, detection_sensitivity := none }

/-- `RetryEngine.should_retry` from `validation/retry_engine.py`: a field is
retried while it has not passed and its retry count is below the maximum. -/
def should_retry (max_attempts : ℕ) (f : DetectedField) : Bool :=
  decide (f.validation_status ≠ ValidationStatus.passed) &&
    decide (f.retry_count < max_attempts)

end RetryEngine

namespace ValidationCoordinator

/-- Result of one external measurement call, as returned by
`GLMVisionProvider.validate_coordinates`: `(passed, measured, difference)` on
success, or the raised exception (`VisionAPIError` from `_call_api`) on
failure. The provider receives the current field and the escalation
parameters of the attempt. -/
def Provider : Type :=
  DetectedField → RetryParameters →
    Except PyExc (Bool × Coordinates × WithTop ℚ)

/-- Exit path of `ValidationCoordinator._validate_field_with_retry`
(`validation/coordinator.py`, lines 219-222): after the retry loop, a field
that has not passed is marked skipped. -/
def finalize_field (f : DetectedField) : DetectedField :=
  if f.validation_status ≠ ValidationStatus.passed then
    { f with validation_status := ValidationStatus.skipped }
  else f

/-- Body of the `while self._retry_engine.should_retry(field)` loop of
`ValidationCoordinator._validate_field_with_retry`
(`validation/coordinator.py`, lines 193-222). Each iteration increments
`retry_count` by exactly one, so the loop performs at most
`max_attempts - retry_count` iterations; that quantity is the structural
fuel, and by the loop guard its exhaustion coincides with the guard turning
false. A provider exception propagates (there is no `try` in the source
loop); the error carries the field state at the moment of the raise. -/
def validate_field_loop (max_attempts : ℕ) (table : ℕ → Option RetryParameters)
    (provider : Provider) :
    ℕ → DetectedField → Except (PyExc × DetectedField) DetectedField
  | 0, f => .ok (finalize_field f)
  | fuel + 1, f =>
      if RetryEngine.should_retry max_attempts f then
        let attempt_num := f.retry_count + 1
        let parameters :=
          RetryEngine.get_parameters_for_attempt table max_attempts attempt_num
        match provider f parameters with
        | .error e => .error (e, f)
        | .ok (passed, measured, difference) =>
            let f' := { f with
              retry_count := attempt_num,
              validation_evidence := some ⟨attempt_num, measured, difference⟩ }
            if passed then
              .ok { f' with validation_status := ValidationStatus.passed }
            else
              validate_field_loop max_attempts table provider fuel f'
      else .ok (finalize_field f)

/-- `ValidationCoordinator._validate_field_with_retry` from
`validation/coordinator.py`: run the retry loop for one field. -/
def validate_field_with_retry (max_attempts : ℕ)
    (table : ℕ → Option RetryParameters) (provider : Provider)
    (f : DetectedField) : Except (PyExc × DetectedField) DetectedField :=
  validate_field_loop max_attempts table provider
    (max_attempts - f.retry_count) f

/-- `ValidationCoordinator.validate_all_fields` from
`validation/coordinator.py` (lines 130-173), restricted to the data the
claims concern: every field is driven through `_validate_field_with_retry`
and appended to `validated_fields`; a field whose final status is skipped is
additionally appended to the retry pool. A provider exception propagates out
of the whole function. Returns `(validated_fields, retry_pool)`. -/
def validate_all_fields (max_attempts : ℕ)
    (table : ℕ → Option RetryParameters) (provider : Provider) :
    List DetectedField →
      Except (PyExc × DetectedField) (List DetectedField × List DetectedField)
  | [] => .ok ([], [])
  | f :: rest =>
      match validate_field_with_retry max_attempts table provider f with
      | .error e => .error e
      | .ok g =>
          match validate_all_fields max_attempts table provider rest with
          | .error e => .error e
          | .ok (vs, pool) =>
              .ok (g :: vs,
                if g.validation_status = ValidationStatus.skipped then
                  g :: pool
                else pool)

end ValidationCoordinator

/-- Encoding of `None`-or-string values under `dataclasses.asdict` plus
`json.dump`. -/
def optStr : Option String → JValue
  | none => .null
  | some s => .jstr s

/-- Encoding of `dataclasses.asdict(coordinates)` for `Coordinates`. -/
def Coordinates.asdict (c : Coordinates) : JValue :=
  .jobj [("x", .jnum c.x), ("y", .jnum c.y), ("width", .jnum c.width),
    ("height", .jnum c.height)]

/-- Encoding of `dataclasses.asdict(hierarchy)` for `FieldHierarchy`. -/
def FieldHierarchy.asdict (h : FieldHierarchy) : JValue :=
  .jobj [("section", .jstr h.«section»), ("subsection", optStr h.subsection),
    ("entry", optStr h.entry), ("field_label", optStr h.field_label)]

/-- Encoding of `dataclasses.asdict(css_coordinates)` for `CSSCoordinates`. -/
def CSSCoordinates.asdict (c : CSSCoordinates) : JValue :=
  .jobj [("top", .jstr c.top), ("left", .jstr c.left),
    ("width", .jstr c.width), ("height", .jstr c.height)]

/-- The thirteen attribute names declared by the `DetectedField` dataclass in
`core/types.py`; Python attribute access on a `DetectedField` instance
succeeds exactly for these names. -/
def DetectedField.attrNames : List String :=
  ["field_id", "field_type", "coordinates", "hierarchy", "page_number",
   "confidence_score", "validation_status", "section_id", "render_order",
   "css_coordinates", "ui_hints", "retry_count", "validation_evidence"]

/-- Python attribute access `field.<name>` on a `DetectedField`: if `name` is
one of the dataclass's declared attributes the given encoded value is
produced, otherwise `AttributeError` is raised. The `v` argument is the JSON
encoding the caller builds from the attribute and is irrelevant when the
attribute does not exist. -/
def attrAccess (name : String) (v : JValue) : Except PyExc JValue :=
  if DetectedField.attrNames.contains name then .ok v
  else .error (.attributeError name)

namespace CheckpointManager

/-- `CheckpointManager._serialize_field` from `workflow/checkpoint.py`
(lines 282-307). The dict literal evaluates its entries in source order:
`field.field_id`, `field.field_type.value`, `asdict(field.coordinates)`,
`asdict(field.hierarchy)`, `field.page_number`, `field.confidence_score`,
`field.validation_status.value`, the `css_coordinates` conditional,
`field.render_order`, then `field.tab_index`, `field.label`,
`field.placeholder`. The last three names are not attributes declared by the
`DetectedField` dataclass in `core/types.py`. -/
def serialize_field (f : DetectedField) : Except PyExc JValue := do
  let fieldId ← attrAccess "field_id" (.jstr f.field_id)
  let fieldType ← attrAccess "field_type" (.jstr f.field_type.value)
  let coordinates ← attrAccess "coordinates" f.coordinates.asdict
  let hierarchy ← attrAccess "hierarchy" f.hierarchy.asdict
  let pageNumber ← attrAccess "page_number" (.jnum (f.page_number : ℚ))
  let confidenceScore ← attrAccess "confidence_score" (.jnum f.confidence_score)
  let validationStatus ←
    attrAccess "validation_status" (.jstr f.validation_status.value)
  let cssCoordinates ← attrAccess "css_coordinates"
    (match f.css_coordinates with
      | some c => c.asdict
      | none => .null)
  let renderOrder ← attrAccess "render_order" (.jnum (f.render_order : ℚ))
  let tabIndex ← attrAccess "tab_index" .null
  let label ← attrAccess "label" .null
  let placeholder ← attrAccess "placeholder" .null
  pure (.jobj [("fieldId", fieldId), ("fieldType", fieldType),
    ("coordinates", coordinates), ("hierarchy", hierarchy),
    ("pageNumber", pageNumber), ("confidenceScore", confidenceScore),
    ("validationStatus", validationStatus),
    ("cssCoordinates", cssCoordinates), ("renderOrder", renderOrder),
    ("tabIndex", tabIndex), ("label", label), ("placeholder", placeholder)])

end CheckpointManager

/-- Python attribute lookup `ValidationStatus.<name>` on the enum class,
raising `AttributeError` for names that are not members
(`core/types.py` declares only `PENDING`, `PASSED`, `SKIPPED`). -/
def enumClassAccess (name : String) : Except PyExc ValidationStatus :=
  match ValidationStatus.classAttr name with
  | some v => .ok v
  | none => .error (.attributeError name)

namespace DiscoveryWorkflow

/-- The list comprehension
`[f for f in state.detected_fields if f.validation_status == ValidationStatus.VALIDATED]`
from `DiscoveryWorkflow._phase_validation` (`workflow/discovery.py`,
lines 314-317). The comparison expression, including the class attribute
lookup `ValidationStatus.VALIDATED`, is evaluated once per iterated element,
so an empty list yields an empty result without evaluating it. -/
def filter_validated : List DetectedField → Except PyExc (List DetectedField)
  | [] => .ok []
  | f :: rest => do
      let tag ← enumClassAccess "VALIDATED"
      let tail ← filter_validated rest
      pure (if f.validation_status = tag then f :: tail else tail)

/-- The list comprehension
`[f for f in state.detected_fields if f.validation_status in (ValidationStatus.FAILED, ValidationStatus.RETRY_EXHAUSTED)]`
from `DiscoveryWorkflow._phase_validation` (`workflow/discovery.py`,
lines 318-321). -/
def filter_retry_pool : List DetectedField → Except PyExc (List DetectedField)
  | [] => .ok []
  | f :: rest => do
      let failedTag ← enumClassAccess "FAILED"
      let exhaustedTag ← enumClassAccess "RETRY_EXHAUSTED"
      let tail ← filter_retry_pool rest
      pure (if f.validation_status = failedTag ∨
          f.validation_status = exhaustedTag then f :: tail else tail)

/-- The partition step of `DiscoveryWorkflow._phase_validation`
(`workflow/discovery.py`, lines 314-323) that computes the `validated` and
`retry_pool` lists handed to `StateManager.set_validated_fields`. -/
def phase_validation_partition (fields : List DetectedField) :
    Except PyExc (List DetectedField × List DetectedField) := do
  let validated ← filter_validated fields
  let retry_pool ← filter_retry_pool fields
  pure (validated, retry_pool)

end DiscoveryWorkflow

/-- `WorkflowPhase` enumeration from `workflow/state.py`. -/
inductive WorkflowPhase where
  | init
  | loading
  | detection
  | validation
  | organization
  | output
  | complete
  | error
  deriving DecidableEq, Repr

/-- `PhaseProgress` dataclass from `workflow/state.py`; timestamps are kept
as their ISO strings. -/
structure PhaseProgress where
  phase : WorkflowPhase
  started_at : Option String := none
  completed_at : Option String := none
  progress_percent : ℚ := 0
  items_total : ℕ := 0
  items_completed : ℕ := 0
  error_message : Option String := none
  deriving DecidableEq, Repr

/-- `WorkflowState` dataclass from `workflow/state.py`; timestamps are kept
as their ISO strings and `output_paths` as an association list. -/
structure WorkflowState where
  workflow_id : String
  document_path : String
  document_hash : String := ""
  current_phase : WorkflowPhase := .init
  phase_history : List PhaseProgress := []
  pages : List PageInfo := []
  detected_fields : List DetectedField := []
  validated_fields : List DetectedField := []
  retry_pool : List DetectedField := []
  output_paths : List (String × String) := []
  started_at : String := ""
  updated_at : String := ""
  error : Option String := none
  deriving DecidableEq, Repr

/-- The checkpoint directory, modelled as the association of workflow ids to
the states stored in their `<id>.json` files. -/
abbrev CheckpointStore : Type := List (String × WorkflowState)

namespace CheckpointManager

/-- `CheckpointManager.load_checkpoint` from `workflow/checkpoint.py`
(lines 67-93): `None` when no file named by the workflow id exists,
otherwise the deserialized state. -/
def load_checkpoint (store : CheckpointStore) (workflow_id : String) :
    Option WorkflowState :=
  (store.find? (fun p => p.1 == workflow_id)).map (·.2)

/-- `CheckpointManager.delete_checkpoint` from `workflow/checkpoint.py`
(lines 95-112): unlink the file if present; return the new store and
whether a file was deleted. -/
def delete_checkpoint (store : CheckpointStore) (workflow_id : String) :
    CheckpointStore × Bool :=
  if (store.find? (fun p => p.1 == workflow_id)).isSome then
    (store.filter (fun p => p.1 != workflow_id), true)
  else (store, false)

end CheckpointManager

/-- What a call to `DiscoveryWorkflow.resume` executes after loading a
checkpoint: either it delegates to `run()` in full (the `INIT`/`LOADING`
branch, which starts a fresh workflow and does not delete the loaded
checkpoint), or it re-runs the listed phases and then deletes the
checkpoint. -/
inductive ResumeOutcome where
  | rerunFull
  | resumed (phases : List WorkflowPhase)
  deriving DecidableEq, Repr

/-- The exception produced by the
`raise WorkflowStateError("resume", f"Checkpoint not found: {workflow_id}")`
statement in `DiscoveryWorkflow.resume` (`workflow/discovery.py`, line 138):
`WorkflowStateError.__init__` in `core/exceptions.py` requires the three
arguments `current_step`, `expected_state`, `actual_state`, and the call
site passes only two, so evaluating the raise expression itself raises
`TypeError`. Either way the resume call terminates with an exception. -/
def resume_missing_checkpoint_exc : PyExc :=
  .typeError
    "WorkflowStateError.__init__ missing 1 required positional argument"

namespace DiscoveryWorkflow

/-- The phase `DiscoveryWorkflow.resume` restarts from
(`workflow/discovery.py`, lines 143-147): the checkpointed current phase,
except that an `ERROR` state falls back to the last phase in history, or
`INIT` when the history is empty. -/
def resume_start_phase (st : WorkflowState) : WorkflowPhase :=
  if st.current_phase = WorkflowPhase.error then
    match st.phase_history.getLast? with
    | some p => p.phase
    | none => WorkflowPhase.init
  else st.current_phase

/-- The phases `DiscoveryWorkflow.resume` re-executes for a given restart
phase (`workflow/discovery.py`, lines 152-171); for `COMPLETE` (and the
unreachable `ERROR`/`INIT`/`LOADING` fall-through) no phase body runs and
the checkpointed output paths are reused. -/
def resume_phase_plan : WorkflowPhase → List WorkflowPhase
  | .detection => [.detection, .validation, .organization, .output]
  | .validation => [.validation, .organization, .output]
  | .organization => [.organization, .output]
  | .output => [.output]
  | _ => []

/-- `DiscoveryWorkflow.resume` from `workflow/discovery.py` (lines 120-174),
restricted to its checkpoint handling and phase dispatch: load the
checkpoint (raising when it is absent), pick the phase to restart from,
then either delegate to `run()` (for `INIT`/`LOADING`, which does not delete
the loaded checkpoint) or execute the remaining phases, delete the
checkpoint, and return. The phase bodies themselves are outside this model;
the outcome records which ones run. -/
def resume (store : CheckpointStore) (workflow_id : String) :
    Except PyExc (CheckpointStore × ResumeOutcome) :=
  match CheckpointManager.load_checkpoint store workflow_id with
  | none => .error resume_missing_checkpoint_exc
  | some st =>
      if resume_start_phase st = WorkflowPhase.init ∨
          resume_start_phase st = WorkflowPhase.loading then
        .ok (store, .rerunFull)
      else
        .ok ((CheckpointManager.delete_checkpoint store workflow_id).1,
          .resumed (resume_phase_plan (resume_start_phase st)))

end DiscoveryWorkflow

/-- `CacheEntry` dataclass from `cache/index.py`. -/
structure CacheEntry where
  cache_id : String
  document_hash : String
  document_name : String
  cached_date : String
  golden_map_path : String
  field_count : ℕ
  accuracy_score : ℚ
  deriving DecidableEq, Repr

namespace CacheIndex

/-- `CacheIndex.get_entry` from `cache/index.py`: dictionary lookup by
document hash, `None` when absent. -/
def get_entry (entries : List (String × CacheEntry)) (document_hash : String) :
    Option CacheEntry :=
  (entries.find? (fun p => p.1 == document_hash)).map (·.2)

end CacheIndex

namespace SidecarManager

/-- `SidecarManager.retrieve_golden_map` from `cache/sidecar.py`
(lines 69-93). The cache directory is modelled as a map from document hash
to the content of `<hash>.json`: `none` when no such file exists, an
`Except.error` when the file cannot be opened or parsed as JSON (the method
catches any exception and returns `None`), and the parsed value otherwise. -/
def retrieve_golden_map (files : String → Option (Except String JValue))
    (document_hash : String) : Option JValue :=
  match files document_hash with
  | none => none
  | some (.error _) => none
  | some (.ok j) => some j

end SidecarManager

namespace DiscoveryWorkflow

/-- The lookup part of `DiscoveryWorkflow._check_cache`
(`workflow/discovery.py`, lines 188-206) given the document hash: when
caching is disabled the result is `None`; otherwise ask the index for an
entry and, if one exists, ask the sidecar store for the artifact; every
missing step yields `None` (a cache miss) and the workflow proceeds with
full processing. Returns the cached map and cache id on a hit. -/
def check_cache (enabled : Bool) (entries : List (String × CacheEntry))
    (files : String → Option (Except String JValue))
    (document_hash : String) : Option (JValue × String) :=
  if enabled = false then none
  else
    match CacheIndex.get_entry entries document_hash with
    | some cache_entry =>
        match SidecarManager.retrieve_golden_map files document_hash with
        | some cached_map => some (cached_map, cache_entry.cache_id)
        | none => none
    | none => none

end DiscoveryWorkflow

/-- One JSON object of the `entries` array of `cache-index.json`, as read
back by `CacheIndex._load_index`: each key may be absent. -/
structure RawIndexEntry where
  cacheId : Option String := none
  documentHash : Option String := none
  documentName : Option String := none
  cachedDate : Option String := none
  goldenMapPath : Option String := none
  fieldCount : Option ℕ := none
  accuracyScore : Option ℚ := none
  deriving DecidableEq, Repr

/-- Python `d[key]` on a parsed JSON object: the value when the key is
present, `KeyError` otherwise. -/
def requireKey {α : Type} (o : Option α) (key : String) : Except PyExc α :=
  match o with
  | some v => .ok v
  | none => .error (.keyError key)

namespace CacheIndex

/-- The `CacheEntry(...)` construction inside the loop of
`CacheIndex._load_index` (`cache/index.py`, lines 73-83): `cacheId`,
`documentHash`, `documentName`, `cachedDate` and `goldenMapPath` are
required lookups (a missing key raises `KeyError`), while `fieldCount` and
`accuracyScore` default through `.get`. -/
def parse_entry (d : RawIndexEntry) : Except PyExc CacheEntry := do
  let cache_id ← requireKey d.cacheId "cacheId"
  let document_hash ← requireKey d.documentHash "documentHash"
  let document_name ← requireKey d.documentName "documentName"
  let cached_date ← requireKey d.cachedDate "cachedDate"
  let golden_map_path ← requireKey d.goldenMapPath "goldenMapPath"
  pure ⟨cache_id, document_hash, document_name, cached_date, golden_map_path,
    d.fieldCount.getD 0, d.accuracyScore.getD 0⟩

/-- Insertion into the `self._entries` dict keyed by document hash: Python
dict assignment replaces in place, keeping the original position of an
existing key and appending a new one. -/
def dict_insert : List (String × CacheEntry) → String → CacheEntry →
    List (String × CacheEntry)
  | [], k, v => [(k, v)]
  | (k', v') :: rest, k, v =>
      if k' == k then (k, v) :: rest else (k', v') :: dict_insert rest k v

/-- The `for entry_data in data.get("entries", [])` loop of
`CacheIndex._load_index`: build the dict entry by entry; the first failing
entry aborts the loop with its exception. -/
def load_entries : List RawIndexEntry → List (String × CacheEntry) →
    Except PyExc (List (String × CacheEntry))
  | [], acc => .ok acc
  | d :: rest, acc => do
      let e ← parse_entry d
      load_entries rest (dict_insert acc e.document_hash e)

/-- `CacheIndex._load_index` from `cache/index.py` (lines 62-85). The index
file is modelled by its content: `none` when the file does not exist (the
method returns with the dict left empty), `some (.error m)` when opening or
JSON-parsing fails, and `some (.ok raws)` for a parsed `entries` array. Any
exception inside the `try` block resets `self._entries` to the empty dict;
the constructor therefore never propagates an exception. -/
def load_index (file : Option (Except String (List RawIndexEntry))) :
    List (String × CacheEntry) :=
  match file with
  | none => []
  | some (.error _) => []
  | some (.ok raws) =>
      match load_entries raws [] with
      | .ok entries => entries
      | .error _ => []

/-- `CacheIndex._save_index` from `cache/index.py` (lines 87-110): the file
is rewritten in full with one object per in-memory entry, every key
present. -/
def save_index (entries : List (String × CacheEntry)) : List RawIndexEntry :=
  entries.map fun p =>
    { cacheId := some p.2.cache_id, documentHash := some p.2.document_hash,
      documentName := some p.2.document_name,
      cachedDate := some p.2.cached_date,
      goldenMapPath := some p.2.golden_map_path,
      fieldCount := some p.2.field_count,
      accuracyScore := some p.2.accuracy_score }

/-- `CacheIndex.add_entry` from `cache/index.py` (lines 112-148): construct
a `CacheEntry` (its `cached_date` is `datetime.now().isoformat()` in the
source and is passed in here), store it under its document hash, and
rewrite the index file via `_save_index`. Returns the new in-memory
entries; the rewritten file content is `save_index` of that result. -/
def add_entry (entries : List (String × CacheEntry)) (cache_id : String)
    (document_hash : String) (document_name : String)
    (golden_map_path : String) (field_count : ℕ) (accuracy_score : ℚ)
    (cached_date : String) : List (String × CacheEntry) :=
  dict_insert entries document_hash
    ⟨cache_id, document_hash, document_name, cached_date, golden_map_path,
      field_count, accuracy_score⟩

end CacheIndex

/-- C5: for every pair of bounding boxes, `ToleranceChecker.check` returns
`passed = true` if and only if the maximum of the four absolute component
differences (the Chebyshev distance over x, y, width, height) is at most the
tolerance; in particular a difference exactly equal to the tolerance
passes. -/
theorem c5_tolerance_check_chebyshev :
    (∀ (tolerance : ℚ) (expected measured : Coordinates),
      (ToleranceChecker.check tolerance expected measured).1 = true ↔
        max (max (max |expected.x - measured.x| |expected.y - measured.y|)
            |expected.width - measured.width|)
          |expected.height - measured.height| ≤ tolerance) ∧
    (∀ expected measured : Coordinates,
      (ToleranceChecker.check
        (max (max (max |expected.x - measured.x| |expected.y - measured.y|)
            |expected.width - measured.width|)
          |expected.height - measured.height|) expected measured).1 = true) := by
  constructor
  · intro tolerance expected measured
    simp [ToleranceChecker.check, pyAbs_eq_abs]
  · intro expected measured
    simp [ToleranceChecker.check, pyAbs_eq_abs]

unseal Rat.add Rat.sub Rat.mul Rat.inv in
/-- C6: the accept decision during field validation does not use the
configured tolerance. With tolerance configured to `1`, a measurement whose
Chebyshev difference is exactly `1` is accepted by the configured
`ToleranceChecker` but rejected by `GLMVisionProvider.validate_coordinates`
(which compares against the literal `0.5`), and the retry loop consequently
drives the field to `skipped` after all seven attempts instead of `passed`. -/
theorem c6_tolerance_not_configured :
    (ToleranceChecker.check 1 ⟨0, 0, 100, 20⟩ ⟨1, 0, 100, 20⟩).1 = true ∧
    (GLMVisionProvider.validate_coordinates ⟨0, 0, 100, 20⟩ true
        ⟨1, 0, 100, 20⟩).1 = false ∧
    Except.map (fun g => (g.validation_status, g.retry_count))
        (ValidationCoordinator.validate_field_with_retry 7 (fun _ => none)
          (fun f _ => .ok (GLMVisionProvider.validate_coordinates
            f.coordinates true ⟨1, 0, 100, 20⟩))
          { field_id := "field_a", field_type := .text_input,
            coordinates := ⟨0, 0, 100, 20⟩,
            hierarchy := { «section» := "S" },
            page_number := 1, confidence_score := 9 / 10 }) =
      .ok (ValidationStatus.skipped, 7) := by
  refine ⟨by decide, by decide, by decide⟩

/-- C1: the checkpoint round-trip fails for every field.
`CheckpointManager._serialize_field` reads `field.tab_index`, which is not
an attribute declared by the `DetectedField` dataclass, so serializing any
field raises `AttributeError` (surfacing as `CheckpointError` from
`save_checkpoint`); no state containing a field can be saved, and the
serializer writes neither `retryCount` nor `validationEvidence`, so a round
trip preserving them is impossible. -/
theorem c1_serialize_field_raises (f : DetectedField) :
    CheckpointManager.serialize_field f =
      .error (.attributeError "tab_index") := by
  rfl

/-- C3: for every detected field handed to the validation phase, the
partition step of `DiscoveryWorkflow._phase_validation` raises
`AttributeError`, because it reads `ValidationStatus.VALIDATED`, which is
not a member of the `ValidationStatus` enumeration; the run aborts instead
of partitioning fields into passed and skipped. -/
theorem c3_phase_validation_raises (f : DetectedField)
    (rest : List DetectedField) :
    DiscoveryWorkflow.phase_validation_partition (f :: rest) =
      .error (.attributeError "VALIDATED") := by
  rfl

/-- Looking up a workflow id in a store from which every pair with that key
has been filtered out finds nothing. -/
theorem load_checkpoint_filter_self (store : CheckpointStore) (id : String) :
    CheckpointManager.load_checkpoint
      (store.filter fun p => p.1 != id) id = none := by
  unfold CheckpointManager.load_checkpoint
  have hfind : (store.filter fun p => p.1 != id).find?
      (fun p => p.1 == id) = none := by
    apply List.find?_eq_none.mpr
    intro x hx
    have hmem := List.mem_filter.mp hx
    simpa using hmem.2
  rw [hfind]
  rfl

/-- After `delete_checkpoint`, loading the same workflow id yields `None`. -/
theorem load_checkpoint_delete_self (store : CheckpointStore) (id : String) :
    CheckpointManager.load_checkpoint
      (CheckpointManager.delete_checkpoint store id).1 id = none := by
  unfold CheckpointManager.delete_checkpoint
  by_cases hs : (store.find? (fun p => p.1 == id)).isSome = true
  · rw [if_pos hs]
    exact load_checkpoint_filter_self store id
  · rw [if_neg hs]
    unfold CheckpointManager.load_checkpoint
    rw [Option.not_isSome_iff_eq_none.mp hs]
    rfl

/-- C4 counterexample: with a checkpoint for one completed workflow in the
store, the first `resume` succeeds, re-executes no phase, and deletes the
checkpoint; calling `resume` again for the same identifier then terminates
with an exception (the checkpoint-not-found raise) rather than being a
successful no-op, so resume after success is not idempotent as claimed. -/
theorem c4_second_resume_not_noop :
    DiscoveryWorkflow.resume
        [("wf_a", { workflow_id := "wf_a",
                    document_path := "/doc.pdf",
                    current_phase := WorkflowPhase.complete })] "wf_a" =
      .ok ([], .resumed []) ∧
    DiscoveryWorkflow.resume ([] : CheckpointStore) "wf_a" =
      .error resume_missing_checkpoint_exc := by
  exact ⟨by decide, by decide⟩

/-- C4 (amended): a second `resume(id)` after a successful resume does not
reprocess any fields, but it is not a silent no-op: resuming an identifier
with no checkpoint terminates with an exception, and a successful
non-delegating resume always deletes its checkpoint, so the identifier no
longer loads afterwards. -/
theorem c4_resume_after_success :
    (∀ (store : CheckpointStore) (workflow_id : String),
      CheckpointManager.load_checkpoint store workflow_id = none →
      DiscoveryWorkflow.resume store workflow_id =
        .error resume_missing_checkpoint_exc) ∧
    (∀ (store store' : CheckpointStore) (workflow_id : String)
        (phases : List WorkflowPhase),
      DiscoveryWorkflow.resume store workflow_id =
        .ok (store', .resumed phases) →
      CheckpointManager.load_checkpoint store' workflow_id = none) := by
  constructor
  · intro store workflow_id h
    unfold DiscoveryWorkflow.resume
    rw [h]
  · intro store store' workflow_id phases h
    unfold DiscoveryWorkflow.resume at h
    split at h
    · exact absurd h (by simp)
    · split at h
      · simp at h
      · simp only [Except.ok.injEq, Prod.mk.injEq] at h
        rw [← h.1]
        exact load_checkpoint_delete_self store workflow_id

/-- C4 amended witness: resuming an identifier with an empty checkpoint
store raises, and the store left by a concrete successful resume no longer
contains the identifier. -/
theorem c4_resume_after_success_witness :
    DiscoveryWorkflow.resume ([] : CheckpointStore) "wf_b" =
      .error resume_missing_checkpoint_exc ∧
    CheckpointManager.load_checkpoint ([] : CheckpointStore) "wf_b" =
      none :=
  ⟨c4_resume_after_success.1 [] "wf_b" rfl,
   c4_resume_after_success.2
     [("wf_b", { workflow_id := "wf_b",
                 document_path := "/doc.pdf",
                 current_phase := WorkflowPhase.complete })] [] "wf_b" []
     (by decide)⟩

/-- C2 counterexample: when the external measurement call fails on the first
attempt (the timeout branch of `_call_api` raising `VisionAPIError`), the
retry loop aborts with that exception: the field comes back unchanged (its
retry count has not advanced and it is still pending, not skipped), no later
attempt is tried, and `validate_all_fields` aborts too instead of routing
the field to the retry pool. -/
theorem c2_call_failure_aborts :
    ValidationCoordinator.validate_field_with_retry 7 (fun _ => none)
        (fun _ _ => .error (.visionAPIError 408 "Request timed out"))
        { field_id := "field_b", field_type := .text_input,
          coordinates := ⟨0, 0, 100, 20⟩,
          hierarchy := { «section» := "S" },
          page_number := 1, confidence_score := 1 } =
      .error (.visionAPIError 408 "Request timed out",
        { field_id := "field_b", field_type := .text_input,
          coordinates := ⟨0, 0, 100, 20⟩,
          hierarchy := { «section» := "S" },
          page_number := 1, confidence_score := 1 }) ∧
    ValidationCoordinator.validate_all_fields 7 (fun _ => none)
        (fun _ _ => .error (.visionAPIError 408 "Request timed out"))
        [{ field_id := "field_b", field_type := .text_input,
           coordinates := ⟨0, 0, 100, 20⟩,
           hierarchy := { «section» := "S" },
           page_number := 1, confidence_score := 1 }] =
      .error (.visionAPIError 408 "Request timed out",
        { field_id := "field_b", field_type := .text_input,
          coordinates := ⟨0, 0, 100, 20⟩,
          hierarchy := { «section» := "S" },
          page_number := 1, confidence_score := 1 }) := by
  exact ⟨by decide, by decide⟩

/-- C2 (amended): an external measurement call failure on an attempt raises
`VisionAPIError` through the retry loop: the field's retry count does not
advance, the field does not transition to passed or skipped and is not
routed to the retry pool, and both `_validate_field_with_retry` and
`validate_all_fields` abort with the exception (which the workflow's `run`
handler checkpoints and re-raises). -/
theorem c2_call_failure_propagates :
    ∀ (max_attempts : ℕ) (table : ℕ → Option RetryParameters)
      (provider : ValidationCoordinator.Provider) (f : DetectedField)
      (e : PyExc),
      RetryEngine.should_retry max_attempts f = true →
      provider f (RetryEngine.get_parameters_for_attempt table max_attempts
        (f.retry_count + 1)) = .error e →
      ValidationCoordinator.validate_field_with_retry max_attempts table
          provider f = .error (e, f) ∧
      ∀ rest, ValidationCoordinator.validate_all_fields max_attempts table
          provider (f :: rest) = .error (e, f) := by
  intro max_attempts table provider f e hs hprov
  have hlt : f.retry_count < max_attempts := by
    have := hs
    unfold RetryEngine.should_retry at this
    simp only [Bool.and_eq_true, decide_eq_true_eq] at this
    exact this.2
  have hfirst : ValidationCoordinator.validate_field_with_retry max_attempts
      table provider f = .error (e, f) := by
    obtain ⟨k, hk⟩ : ∃ k, max_attempts - f.retry_count = k + 1 :=
      ⟨max_attempts - f.retry_count - 1, by omega⟩
    unfold ValidationCoordinator.validate_field_with_retry
    rw [hk]
    unfold ValidationCoordinator.validate_field_loop
    rw [if_pos hs]
    simp only [hprov]
  refine ⟨hfirst, fun rest => ?_⟩
  unfold ValidationCoordinator.validate_all_fields
  rw [hfirst]

/-- C2 amended witness: the amended statement instantiated on a concrete
pending field and a provider whose first call times out. -/
theorem c2_call_failure_propagates_witness :
    RetryEngine.should_retry 7
      { field_id := "field_b", field_type := .text_input,
        coordinates := ⟨0, 0, 100, 20⟩,
        hierarchy := { «section» := "S" },
        page_number := 1, confidence_score := 1 } = true ∧
    ValidationCoordinator.validate_field_with_retry 7 (fun _ => none)
        (fun _ _ => .error (.visionAPIError 408 "Request timed out"))
        { field_id := "field_b", field_type := .text_input,
          coordinates := ⟨0, 0, 100, 20⟩,
          hierarchy := { «section» := "S" },
          page_number := 1, confidence_score := 1 } =
      .error (.visionAPIError 408 "Request timed out",
        { field_id := "field_b", field_type := .text_input,
          coordinates := ⟨0, 0, 100, 20⟩,
          hierarchy := { «section» := "S" },
          page_number := 1, confidence_score := 1 }) :=
  ⟨by decide,
   (c2_call_failure_propagates 7 (fun _ => none)
     (fun _ _ => .error (.visionAPIError 408 "Request timed out"))
     { field_id := "field_b", field_type := .text_input,
       coordinates := ⟨0, 0, 100, 20⟩,
       hierarchy := { «section» := "S" },
       page_number := 1, confidence_score := 1 }
     (.visionAPIError 408 "Request timed out") (by decide) rfl).1⟩

/-- Invariant of the retry loop: a normally returned field has gained at
most `fuel` retries and its status is passed or skipped, never pending. -/
theorem validate_field_loop_ok_bound (max_attempts : ℕ)
    (table : ℕ → Option RetryParameters)
    (provider : ValidationCoordinator.Provider) :
    ∀ (fuel : ℕ) (f g : DetectedField),
      ValidationCoordinator.validate_field_loop max_attempts table provider
        fuel f = .ok g →
      g.retry_count ≤ f.retry_count + fuel ∧
        (g.validation_status = ValidationStatus.passed ∨
          g.validation_status = ValidationStatus.skipped) := by
  intro fuel
  induction fuel with
  | zero =>
      intro f g h
      unfold ValidationCoordinator.validate_field_loop at h
      injection h with h
      subst h
      unfold ValidationCoordinator.finalize_field
      split
      · exact ⟨Nat.le.refl, Or.inr rfl⟩
      · rename_i hp
        exact ⟨Nat.le.refl, Or.inl (not_ne_iff.mp hp)⟩
  | succ n ih =>
      intro f g h
      unfold ValidationCoordinator.validate_field_loop at h
      split at h
      · dsimp only at h
        cases hp : provider f (RetryEngine.get_parameters_for_attempt table
            max_attempts (f.retry_count + 1)) with
        | error e => rw [hp] at h; simp at h
        | ok r =>
            rw [hp] at h
            obtain ⟨passed, measured, difference⟩ := r
            dsimp only at h
            by_cases hpass : passed = true
            · rw [if_pos hpass] at h
              injection h with h
              subst h
              refine ⟨?_, Or.inl rfl⟩
              show f.retry_count + 1 ≤ f.retry_count + (n + 1)
              omega
            · rw [if_neg hpass] at h
              have hres := ih _ g h
              dsimp only at hres
              exact ⟨by omega, hres.2⟩
      · injection h with h
        subst h
        unfold ValidationCoordinator.finalize_field
        split
        · exact ⟨Nat.le_add_right _ _, Or.inr rfl⟩
        · rename_i hp
          exact ⟨Nat.le_add_right _ _, Or.inl (not_ne_iff.mp hp)⟩

/-- C7: once `validate_all_fields` completes normally on fields that start
with retry count 0 and status pending or passed, every returned field has
`retry_count <= max_attempts` and a validation status of passed or skipped,
never pending. -/
theorem c7_validation_invariant :
    ∀ (max_attempts : ℕ) (table : ℕ → Option RetryParameters)
      (provider : ValidationCoordinator.Provider)
      (fields out pool : List DetectedField),
      (∀ f ∈ fields, f.retry_count = 0 ∧
        (f.validation_status = ValidationStatus.pending ∨
          f.validation_status = ValidationStatus.passed)) →
      ValidationCoordinator.validate_all_fields max_attempts table provider
        fields = .ok (out, pool) →
      ∀ g ∈ out, g.retry_count ≤ max_attempts ∧
        (g.validation_status = ValidationStatus.passed ∨
          g.validation_status = ValidationStatus.skipped) := by
  intro max_attempts table provider fields
  induction fields with
  | nil =>
      intro out pool hinit h g hg
      unfold ValidationCoordinator.validate_all_fields at h
      simp only [Except.ok.injEq, Prod.mk.injEq] at h
      rw [← h.1] at hg
      simp at hg
  | cons f rest ih =>
      intro out pool hinit h g hg
      unfold ValidationCoordinator.validate_all_fields at h
      cases hv : ValidationCoordinator.validate_field_with_retry max_attempts
          table provider f with
      | error e => rw [hv] at h; simp at h
      | ok g0 =>
          rw [hv] at h
          cases hrest : ValidationCoordinator.validate_all_fields max_attempts
              table provider rest with
          | error e => rw [hrest] at h; simp at h
          | ok p =>
              obtain ⟨vs, pool'⟩ := p
              rw [hrest] at h
              simp only [Except.ok.injEq, Prod.mk.injEq] at h
              rw [← h.1] at hg
              rcases List.mem_cons.mp hg with hg0 | hgs
              · subst hg0
                unfold ValidationCoordinator.validate_field_with_retry at hv
                have hres := validate_field_loop_ok_bound max_attempts table
                  provider _ f g hv
                have hf0 : f.retry_count = 0 := (hinit f (by simp)).1
                refine ⟨?_, hres.2⟩
                have := hres.1
                omega
              · exact ih vs pool'
                  (fun x hx => hinit x (List.mem_cons_of_mem f hx))
                  hrest g hgs

/-- C7 witness: a concrete pending field validated with two attempts allowed
and a provider that passes on the first attempt satisfies both the initial
conditions and the invariant. -/
theorem c7_validation_invariant_witness :
    (∀ f ∈ [({ field_id := "field_c",
               field_type := .checkbox,
               coordinates := ⟨0, 0, 10, 10⟩,
               hierarchy := { «section» := "S" },
               page_number := 1,
               confidence_score := 1 } : DetectedField)],
      f.retry_count = 0 ∧
        (f.validation_status = ValidationStatus.pending ∨
          f.validation_status = ValidationStatus.passed)) ∧
    (∀ g ∈ [({ field_id := "field_c",
               field_type := .checkbox,
               coordinates := ⟨0, 0, 10, 10⟩,
               hierarchy := { «section» := "S" },
               page_number := 1,
               confidence_score := 1,
               validation_status := ValidationStatus.passed,
               retry_count := 1,
               validation_evidence :=
                 some ⟨1, ⟨0, 0, 10, 10⟩,
                   ((0 : ℚ) : WithTop ℚ)⟩ } : DetectedField)],
      g.retry_count ≤ 2 ∧
        (g.validation_status = ValidationStatus.passed ∨
          g.validation_status = ValidationStatus.skipped)) :=
  ⟨by decide,
   c7_validation_invariant 2 (fun _ => none)
     (fun f _ => .ok (true, f.coordinates, ((0 : ℚ) : WithTop ℚ)))
     [{ field_id := "field_c",
        field_type := .checkbox,
        coordinates := ⟨0, 0, 10, 10⟩,
        hierarchy := { «section» := "S" },
        page_number := 1,
        confidence_score := 1 }]
     [{ field_id := "field_c",
        field_type := .checkbox,
        coordinates := ⟨0, 0, 10, 10⟩,
        hierarchy := { «section» := "S" },
        page_number := 1,
        confidence_score := 1,
        validation_status := ValidationStatus.passed,
        retry_count := 1,
        validation_evidence :=
          some ⟨1, ⟨0, 0, 10, 10⟩, ((0 : ℚ) : WithTop ℚ)⟩ }] []
     (by decide) (by decide)⟩

/-- C8: the cache lookup never fails the pipeline. For any document hash, if
the index has no entry the lookup is a miss (`None`, no exception), and if
the index has an entry but the sidecar store yields no retrievable artifact
(missing, unreadable or unparsable file) the lookup is likewise a miss. -/
theorem c8_cache_lookup_miss :
    ∀ (enabled : Bool) (entries : List (String × CacheEntry))
      (files : String → Option (Except String JValue))
      (document_hash : String),
      (CacheIndex.get_entry entries document_hash = none →
        DiscoveryWorkflow.check_cache enabled entries files document_hash =
          none) ∧
      (∀ e, CacheIndex.get_entry entries document_hash = some e →
        SidecarManager.retrieve_golden_map files document_hash = none →
        DiscoveryWorkflow.check_cache enabled entries files document_hash =
          none) := by
  intro enabled entries files document_hash
  constructor
  · intro h
    cases enabled <;> simp [DiscoveryWorkflow.check_cache, h]
  · intro e he hr
    cases enabled <;> simp [DiscoveryWorkflow.check_cache, he, hr]

/-- C8 witness: a concrete unknown hash misses, and a concrete hash whose
index entry points at a missing artifact also misses. -/
theorem c8_cache_lookup_miss_witness :
    DiscoveryWorkflow.check_cache true [] (fun _ => none) "h1" = none ∧
    DiscoveryWorkflow.check_cache true
      [("h1", { cache_id := "cache_1", document_hash := "h1",
                document_name := "doc.pdf", cached_date := "d",
                golden_map_path := "/p.json", field_count := 3,
                accuracy_score := 97 })]
      (fun _ => none) "h1" = none :=
  ⟨(c8_cache_lookup_miss true [] (fun _ => none) "h1").1 rfl,
   (c8_cache_lookup_miss true
     [("h1", { cache_id := "cache_1", document_hash := "h1",
               document_name := "doc.pdf", cached_date := "d",
               golden_map_path := "/p.json", field_count := 3,
               accuracy_score := 97 })]
     (fun _ => none) "h1").2
     { cache_id := "cache_1", document_hash := "h1",
       document_name := "doc.pdf", cached_date := "d",
       golden_map_path := "/p.json", field_count := 3,
       accuracy_score := 97 } rfl rfl⟩

/-- C10: constructing a `CacheIndex` over a missing or unreadable or
malformed index file leaves the in-memory index empty, so every lookup is a
miss, and the construction raises nothing (the load is total); a later
`add_entry` on the empty index rewrites a full, well-formed index file that
parses back to exactly the added entry. -/
theorem c10_cache_index_recovery :
    (∀ file : Option (Except String (List RawIndexEntry)),
      (file = none ∨ ∃ m, file = some (.error m)) →
      CacheIndex.load_index file = [] ∧
        ∀ h, CacheIndex.get_entry (CacheIndex.load_index file) h = none) ∧
    (∀ (cache_id document_hash document_name golden_map_path : String)
        (field_count : ℕ) (accuracy_score : ℚ) (cached_date : String),
      CacheIndex.load_index (some (.ok (CacheIndex.save_index
          (CacheIndex.add_entry [] cache_id document_hash document_name
            golden_map_path field_count accuracy_score cached_date)))) =
        CacheIndex.add_entry [] cache_id document_hash document_name
          golden_map_path field_count accuracy_score cached_date) := by
  constructor
  · rintro file (rfl | ⟨m, rfl⟩)
    · exact ⟨rfl, fun h => rfl⟩
    · exact ⟨rfl, fun h => rfl⟩
  · intro cache_id document_hash document_name golden_map_path field_count
      accuracy_score cached_date
    rfl

/-- C10 witness: a missing file and a malformed file both load as the empty
index with missing lookups, and a concrete `add_entry` round-trips through
the saved file. -/
theorem c10_cache_index_recovery_witness :
    CacheIndex.load_index none = [] ∧
    CacheIndex.get_entry (CacheIndex.load_index (some (.error "bad json")))
      "h1" = none ∧
    CacheIndex.load_index (some (.ok (CacheIndex.save_index
        (CacheIndex.add_entry [] "cache_1" "h1" "doc.pdf" "/p.json" 3 97
          "d")))) =
      CacheIndex.add_entry [] "cache_1" "h1" "doc.pdf" "/p.json" 3 97 "d" :=
  ⟨(c10_cache_index_recovery.1 none (Or.inl rfl)).1,
   (c10_cache_index_recovery.1 (some (.error "bad json"))
     (Or.inr ⟨"bad json", rfl⟩)).2 "h1",
   c10_cache_index_recovery.2 "cache_1" "h1" "doc.pdf" "/p.json" 3 97 "d"⟩

end PdfMapper
